import Mathlib

/-!
Verification of the download-orchestration core of `main.py` and the minimal
bot variant `bot.py`. Each Python function relevant to the specification is
shallowly embedded as an executable Lean definition: stateful code becomes
explicit state passing, subprocess and network effects become oracle inputs
(`Option`/`Except` valued), wall-clock timestamps become integer milliseconds,
byte counts become natural numbers, and the one floating-point computation the
claims touch (`int((current / total) * 100)` in the web progress tracker) is
modelled by an exact IEEE 754 binary64 round-to-nearest-even evaluation.
-/

/-! ## String helpers

Python's `in`, `startswith`, `endswith`, `lower` and `strip` operations on
`str`, embedded on the character list underlying `String`. -/

/-- Python `needle in hay` (substring containment) on character lists. -/
def chars_has_infix (need : List Char) : List Char → Bool
  | [] => need.isEmpty
  | c :: rest => List.isPrefixOf need (c :: rest) || chars_has_infix need rest

/-- Python `need in hay` for strings. -/
def str_in (need hay : String) : Bool := chars_has_infix need.data hay.data

/-- Python `s.startswith(pre)`. -/
def starts_with (pre s : String) : Bool := List.isPrefixOf pre.data s.data

/-- Python `s.endswith(suf)`. -/
def ends_with (suf s : String) : Bool := List.isSuffixOf suf.data s.data

/-- Python `s.lower()`. -/
def str_lower (s : String) : String := ⟨s.data.map Char.toLower⟩

/-- Python `s.strip()`: drop leading and trailing whitespace. -/
def str_strip (s : String) : String :=
  ⟨((s.data.dropWhile Char.isWhitespace).reverse.dropWhile Char.isWhitespace).reverse⟩

/-! ## Platform classifier (`SocialMediaDownloader.get_platform`, main.py 1155-1176) -/

/-- YouTube domain patterns (main.py line 1160). -/
def youtube_domains : List String := ["youtube.com", "youtu.be", "youtube-nocookie.com"]

/-- Twitter/X domain patterns (main.py line 1163). -/
def twitter_domains : List String := ["twitter.com", "x.com", "mobile.twitter.com", "mobile.x.com"]

/-- Facebook domain patterns (main.py line 1165). -/
def facebook_domains : List String := ["facebook.com", "fb.com", "fb.watch", "m.facebook.com"]

/-- TikTok domain patterns (main.py line 1167). -/
def tiktok_domains : List String := ["tiktok.com", "vm.tiktok.com", "m.tiktok.com"]

/-- Instagram domain patterns (main.py line 1169). -/
def instagram_domains : List String := ["instagram.com", "instagr.am"]

/-- Direct-media file extensions (main.py line 1173). -/
def direct_exts : List String := [".mp4", ".mkv", ".avi", ".webm", ".mov"]

/-- The `if`/`elif` chain of `get_platform` on the already-normalized URL. -/
def platform_of (url_lower : String) : String :=
  if youtube_domains.any (fun d => str_in d url_lower) then "youtube"
  else if twitter_domains.any (fun d => str_in d url_lower) then "twitter"
  else if facebook_domains.any (fun d => str_in d url_lower) then "facebook"
  else if tiktok_domains.any (fun d => str_in d url_lower) then "tiktok"
  else if instagram_domains.any (fun d => str_in d url_lower) then "instagram"
  else if ends_with ".m3u8" url_lower || str_in "m3u8" url_lower then "m3u8"
  else if direct_exts.any (fun e => str_in e url_lower) then "direct"
  else "unknown"

/-- `get_platform(url)`: normalize with `url.lower().strip()` and match the
pattern chain (main.py 1155-1176). -/
def get_platform (url : String) : String := platform_of (str_strip (str_lower url))

/-- True iff any platform, segmented-stream or direct-media pattern matches the
normalized URL (the disjunction of every guard in `get_platform`). -/
def any_known_pattern (url_lower : String) : Bool :=
  youtube_domains.any (fun d => str_in d url_lower) ||
  twitter_domains.any (fun d => str_in d url_lower) ||
  facebook_domains.any (fun d => str_in d url_lower) ||
  tiktok_domains.any (fun d => str_in d url_lower) ||
  instagram_domains.any (fun d => str_in d url_lower) ||
  (ends_with ".m3u8" url_lower || str_in "m3u8" url_lower) ||
  direct_exts.any (fun e => str_in e url_lower)

/-- All tags `get_platform` can produce. -/
def platform_tags : List String :=
  ["youtube", "twitter", "facebook", "tiktok", "instagram", "m3u8", "direct", "unknown"]

/-! ## Strategy racer (`download_video`, main.py 2264-2347, and
`download_video_with_quality`, main.py 2349-2439)

Each strategy attempt (`try_yt_dlp` / `try_api` / `try_cookies`) either
produces a `(file_path, metadata_title)` pair or an error message; the
wrappers log the message and reduce it to `(None, None)`. The racer loop
(lines 2330-2347) returns the first successful pair in completion order and
returns `(None, None)` when every task failed. -/

/-- One strategy attempt: a `(file_path, title)` pair or an error cause. -/
abbrev StrategyOutcome := Except String (String × String)

/-- The `as_completed` loop of `download_video` (main.py 2330-2347): scan the
completed tasks in order, return the first successful `(file, metadata)` pair;
if none succeeded, fall through to `return None, None` (line 2347), discarding
every error cause. -/
def download_video : List StrategyOutcome → Option (String × String)
  | [] => none
  | Except.ok r :: _ => some r
  | Except.error _ :: rest => download_video rest

/-- The sequential priority chain of `download_video_with_quality`
(main.py 2378-2439): packages, then API, then cookies; when every priority
returns `(None, None)` the function returns `(None, None)` (line 2439). -/
def download_video_with_quality (p1 p2 p3 : Option (String × String)) :
    Option (String × String) :=
  match p1 with
  | some r => some r
  | none =>
    match p2 with
    | some r => some r
    | none => p3

/-! ## Compression pipeline (main.py 1929-2079 and 1574-1598) -/

/-- Telegram's bot upload limit, `Config.MAX_FILE_SIZE` (main.py line 177). -/
def MAX_FILE_SIZE : Nat := 50 * 1024 * 1024

/-- `Config.MAX_VIDEO_SIZE` (main.py line 178). -/
def MAX_VIDEO_SIZE : Nat := 2 * 1024 * 1024 * 1024

/-- One aggressive-compression preset (main.py 2006-2010). -/
structure CompressionLevel where
  height : Nat
  bitrate : String
  audio : String
  crf : String
  preset_speed : String
deriving Repr, DecidableEq

/-- The progressive compression ladder of `_compress_video_aggressive`
(main.py 2006-2010), most-preserving first. -/
def compression_levels : List CompressionLevel :=
  [⟨720, "1000k", "96k", "28", "fast"⟩,
   ⟨480, "600k", "80k", "30", "faster"⟩,
   ⟨360, "400k", "64k", "32", "veryfast"⟩]

/-- One `compress_level` invocation (main.py 2021-2058) for a level whose
ffmpeg run is described by `outcome`: `none` when ffmpeg fails (no usable
output), `some size` when it produces `path` with `size` bytes. The file
system is a list of paths. An output within budget is kept and returned; an
output over budget is deleted (`os.unlink`, line 2048) and `None` is returned
so the loop proceeds to the next level. -/
def compress_level (budget : Nat) (fs : List String) (path : String)
    (outcome : Option Nat) : Option (String × Nat) × List String :=
  match outcome with
  | none => (none, fs)
  | some size =>
    let fs1 := path :: fs
    if size ≤ budget then (some (path, size), fs1)
    else (none, fs1.erase path)

/-- The level loop of `_compress_video_aggressive` (main.py 2012-2075):
attempt each level in order; return the first kept output; after the last
level return `None` ("All compression levels failed", line 2074-2075).
`attempts` pairs each level's output path with its ffmpeg outcome. -/
def compress_video_aggressive (budget : Nat) :
    List (String × Option Nat) → List String → Option (String × Nat) × List String
  | [], fs => (none, fs)
  | (path, outcome) :: rest, fs =>
    match compress_level budget fs path outcome with
    | (some r, fs1) => (some r, fs1)
    | (none, fs1) => compress_video_aggressive budget rest fs1

/-- Modelled from the spec: "The first level whose output satisfies the budget
is kept" (§4.6) — the functional specification the loop is compared against. -/
def spec_first_fit (budget : Nat) : List (String × Option Nat) → Option (String × Nat)
  | [] => none
  | (path, some size) :: rest =>
    if size ≤ budget then some (path, size) else spec_first_fit budget rest
  | (_, none) :: rest => spec_first_fit budget rest

/-- Strategy selection of `_compress_video_smart` (main.py 1985-1998): files
under 100MB use the single-pass ultra-fast re-encode, larger files the
aggressive ladder; each alternative's result is an oracle argument. -/
def compress_video_smart (original_size : Nat)
    (ultra_fast aggressive : Option (String × Nat)) : Option (String × Nat) :=
  if original_size < 100 * 1024 * 1024 then ultra_fast else aggressive

/-- The size gate of `_download_with_enhanced_compression` (main.py 1574-1598),
the ensure-within-budget entry point: a downloaded file of `size` bytes at
`path` is compressed only when `size > budget`; `compressed` is the oracle
result of the smart-compression call. Returns the delivered `(path, size)`
(or `none` for `return None, None`) together with the number of transcoding
invocations performed. -/
def ensure_within_budget (budget : Nat) (path : String) (size : Nat)
    (compressed : Option (String × Nat)) : Option (String × Nat) × Nat :=
  if budget < size then
    match compressed with
    | some (cpath, csize) =>
      if csize ≤ budget then (some (cpath, csize), 1) else (none, 1)
    | none => (none, 1)
  else (some (path, size), 0)

/-! ## Request-scoped temporary storage (main.py 1138, 1144-1153) -/

/-- A path inside the request's temp directory (`f"{self.temp_dir}/..."`). -/
def temp_path (temp_dir name : String) : String := temp_dir ++ "/" ++ name

/-- The transient cookie store of `download_with_cookies` (main.py line 1846). -/
def cookie_file (temp_dir : String) : String := temp_path temp_dir "cookies.txt"

/-- An aggressive-compression intermediate artifact (main.py line 2013). -/
def aggressive_output (temp_dir : String) (height t : Nat) : String :=
  temp_path temp_dir ("aggressive_" ++ toString height ++ "p_" ++ toString t ++ ".mp4")

/-- An ultra-fast-compression artifact (main.py line 1933). -/
def ultra_fast_output (temp_dir : String) (t : Nat) : String :=
  temp_path temp_dir ("ultra_fast_" ++ toString t ++ ".mp4")

/-- `__aexit__`'s `shutil.rmtree(self.temp_dir, ignore_errors=True)`
(main.py 1149-1153) on a file system modelled as a list of paths: every path
that is the temp directory or lies under it is removed. -/
def aexit_cleanup (temp_dir : String) (fs : List String) : List String :=
  fs.filter (fun p => !(p == temp_dir || starts_with (temp_dir ++ "/") p))

/-! ## Progress reporters (main.py 833-916 and 1026-1046)

Wall-clock timestamps are modelled as integer milliseconds. -/

/-- Mutable state of `ProgressTracker` relevant to throttling (main.py
836-842): `last_update` starts at 0 and is set to the emission time only when
`edit_message_text` succeeds (line 913). -/
structure ProgressTracker where
  last_update : Int
  last_bytes : Int
deriving Repr, DecidableEq

/-- The 1.2-second throttle interval of `ProgressTracker.update_progress`
(main.py line 847), in milliseconds. -/
def throttle_ms : Int := 1200

/-- `ProgressTracker.update_progress` (main.py 844-916) reduced to its
emission behaviour: a call within `throttle_ms` of the last emitted update
returns without emitting (lines 846-848); otherwise the message edit is
attempted, and on success (`edit_ok`) `last_update`/`last_bytes` are advanced
(lines 906-916). Returns the new state and whether an update was emitted. -/
def update_progress (st : ProgressTracker) (now current : Int) (edit_ok : Bool) :
    ProgressTracker × Bool :=
  if now - st.last_update < throttle_ms then (st, false)
  else if edit_ok then ({ last_update := now, last_bytes := current }, true)
  else (st, false)

/-- Run a whole trace of `update_progress` calls, collecting the wall-clock
times of the emitted updates. -/
def run_progress (st : ProgressTracker) : List (Int × Int × Bool) → List Int
  | [] => []
  | (now, current, ok) :: rest =>
    match update_progress st now current ok with
    | (st1, true) => now :: run_progress st1 rest
    | (st1, false) => run_progress st1 rest

/-- `WebProgressTracker` state (main.py 1026-1029): only the throttle clock. -/
structure WebProgressTracker where
  last_update : Int
deriving Repr, DecidableEq

/-- The 1-second throttle of `WebProgressTracker.update_progress`
(main.py line 1033), in milliseconds. -/
def web_throttle_ms : Int := 1000

/-! ### Binary64 model of `int((current / total) * 100)` (main.py line 1036)

CPython evaluates `current / total` and the product by `100` in IEEE 754
binary64 with round-to-nearest, ties-to-even, then `int` truncates toward
zero. The model below computes exactly that for non-negative integer inputs
in the finite normal range (every byte counter in practice): a positive float
is a significand `m` with `2^52 ≤ m < 2^53` times `2^p`. -/

/-- Bit length of a natural number, via an always-sufficient fuel. -/
def bit_len_fuel : Nat → Nat → Nat
  | _, 0 => 0
  | 0, _ => 0
  | fuel + 1, n + 1 => bit_len_fuel fuel ((n + 1) / 2) + 1

/-- Bit length: `bit_len n = k` iff `2^(k-1) ≤ n < 2^k` (and `bit_len 0 = 0`). -/
def bit_len (n : Nat) : Nat := bit_len_fuel n n

/-- `b * 2^e ≤ a` for a possibly negative exponent `e`. -/
def le_scaled (b a : Nat) (e : Int) : Bool :=
  if 0 ≤ e then b * 2 ^ e.toNat ≤ a else b ≤ a * 2 ^ (-e).toNat

/-- Round `q + r/den` (with `0 ≤ r < den`) to an integer, nearest,
ties-to-even. -/
def round_half_even (q r den : Nat) : Nat :=
  if den < 2 * r then q + 1
  else if 2 * r < den then q
  else if q % 2 = 1 then q + 1 else q

/-- A positive binary64 value `m * 2^p` with normalized `2^52 ≤ m < 2^53`. -/
structure F64 where
  m : Nat
  p : Int
deriving Repr, DecidableEq

/-- Binary64 division `a / b` of positive integers: locate the exponent `e`
with `2^e ≤ a/b < 2^(e+1)`, take 53 significant bits of the quotient and
round to nearest, ties-to-even (with carry when the significand overflows). -/
def fl_div (a b : Nat) : F64 :=
  let e0 : Int := (bit_len a : Int) - (bit_len b : Int)
  let e : Int := if le_scaled b a e0 then e0 else e0 - 1
  let p : Int := e - 52
  let (q, r, den) :=
    if 0 ≤ p then (a / (b * 2 ^ p.toNat), a % (b * 2 ^ p.toNat), b * 2 ^ p.toNat)
    else ((a * 2 ^ (-p).toNat) / b, (a * 2 ^ (-p).toNat) % b, b)
  let m := round_half_even q r den
  if m = 2 ^ 53 then ⟨2 ^ 52, p + 1⟩ else ⟨m, p⟩

/-- Binary64 multiplication of a positive float by the exact constant `100`:
the integer product `100 * m` is rounded back to 53 significant bits,
nearest, ties-to-even. -/
def fl_mul100 (x : F64) : F64 :=
  let t := 100 * x.m
  let s := bit_len t - 53
  if s = 0 then ⟨t, x.p⟩
  else
    let m := round_half_even (t / 2 ^ s) (t % 2 ^ s) (2 ^ s)
    if m = 2 ^ 53 then ⟨2 ^ 52, x.p + s + 1⟩ else ⟨m, x.p + s⟩

/-- Python `int()` on a positive float: truncation toward zero. -/
def f64_trunc (x : F64) : Nat :=
  if 0 ≤ x.p then x.m * 2 ^ x.p.toNat else x.m / 2 ^ (-x.p).toNat

/-- CPython's `int((current / total) * 100)` for `total > 0`, evaluated in
binary64 arithmetic (`0 / total` is exactly `0.0`). -/
def py_int_div_mul100 (current total : Nat) : Nat :=
  if current = 0 then 0 else f64_trunc (fl_mul100 (fl_div current total))

/-- `WebProgressTracker.update_progress` (main.py 1031-1046): a throttled call
stores nothing; an accepted call stores
`max(20, min(int((current / total) * 100) if total > 0 else 0, 100))`
(lines 1036 and 1042) and advances the clock, with the inner expression
evaluated in binary64 floating point as CPython does. -/
def web_update_progress (st : WebProgressTracker) (now : Int) (current total : Nat) :
    WebProgressTracker × Option Nat :=
  if now - st.last_update < web_throttle_ms then (st, none)
  else
    let percentage := min (if 0 < total then py_int_div_mul100 current total else 0) 100
    ({ last_update := now }, some (max 20 percentage))

/-! ## Retry decorator of `_get_video_quality_info` (main.py line 1178)

`@retry(stop=stop_after_attempt(3), wait=wait_exponential(multiplier=1, min=4, max=10))` -/

/-- tenacity's `stop_after_attempt` argument at main.py line 1178. -/
def stop_attempts : Nat := 3

/-- tenacity's `wait_exponential(multiplier, min, max)`: the wait after the
`attempt`-th failed attempt is `multiplier * 2^(attempt-1)` clamped into
`[lo, hi]`. -/
def wait_exponential (multiplier lo hi attempt : Nat) : Nat :=
  max lo (min (multiplier * 2 ^ (attempt - 1)) hi)

/-- The wait schedule configured at main.py line 1178:
`wait_exponential(multiplier=1, min=4, max=10)` (seconds). -/
def quality_info_wait (attempt : Nat) : Nat := wait_exponential 1 4 10 attempt

/-- Modelled from the spec: "exponential backoff (base 1s, factor 2, cap 10s)"
(§4.4) — the wait schedule the spec describes, with no lower clamp. -/
def spec_backoff (attempt : Nat) : Nat := min (1 * 2 ^ (attempt - 1)) 10

/-- tenacity's retry driver under `stop_after_attempt`: run attempts `1..n`
in order, return the first success, give up after the `n`-th failure.
`runs k` is the outcome of the `k`-th invocation of the wrapped call. -/
def retry_call (n : Nat) (runs : Nat → Option Nat) : Option Nat :=
  (List.range n).findSome? (fun i => runs (i + 1))

/-! ## Minimal bot variant (`bot.py`) -/

/-- What `handle_link` (bot.py 66-80) does with an incoming message: either
reply "Invalid URL." and return (line 69-70), or proceed to the download
machinery with the stripped URL (lines 71-80). -/
inductive HandleAction where
  | replyInvalid : HandleAction
  | download (url : String) : HandleAction
deriving Repr, DecidableEq

/-- `handle_link` scheme gate (bot.py 67-70): `url = text.strip()`; if
`re.match(r"^https?://", url)` fails, reply with the invalid-URL message and
return; otherwise invoke the download machinery on `url`. -/
def handle_link (text : String) : HandleAction :=
  let url := str_strip text
  if starts_with "http://" url || starts_with "https://" url then
    HandleAction.download url
  else
    HandleAction.replyInvalid

/-! ## Theorems -/

/-- Any extension of a string by concatenation starts with that string. -/
theorem starts_with_append (a b : String) : starts_with a (a ++ b) = true := by
  simp [starts_with, String.data_append, List.isPrefixOf_iff_prefix, List.prefix_append]

/-- The racer loop returns `none` whenever every completed task errored. -/
theorem download_video_of_all_error (outcomes : List StrategyOutcome)
    (h : ∀ o ∈ outcomes, ∃ e, o = Except.error e) : download_video outcomes = none := by
  induction outcomes with
  | nil => rfl
  | cons o rest ih =>
    obtain ⟨e, he⟩ := h o (List.mem_cons_self _ _)
    subst he
    simpa [download_video] using ih (fun o ho => h o (List.mem_cons_of_mem _ ho))

/-- C1 (counterexample): when every executor fails, `download_video` and
`download_video_with_quality` return the plain empty result `(None, None)` —
there is no `AllStrategiesExhausted` tag, and the result is identical for two
entirely different sets of error causes, so it cannot carry any executor's
error cause. -/
theorem download_video_all_fail_counterexample :
    download_video [Except.error "AuthRequired", Except.error "NotFound",
        Except.error "NetworkTimeout"] = none
    ∧ download_video [Except.error "AuthRequired", Except.error "NotFound",
          Except.error "NetworkTimeout"]
        = download_video [Except.error "RateLimited", Except.error "Unsupported",
            Except.error "Unknown"]
    ∧ download_video_with_quality none none none = none :=
  ⟨rfl, rfl, rfl⟩

/-- C1 (amended): for every request in which every acquisition strategy fails,
the racer `download_video` and the priority chain `download_video_with_quality`
return the untagged empty result `(None, None)`; the individual error causes
are only logged, not aggregated into the return value. -/
theorem download_video_all_fail_empty (outcomes : List StrategyOutcome)
    (h : ∀ o ∈ outcomes, ∃ e, o = Except.error e) :
    download_video outcomes = none
    ∧ download_video_with_quality none none none = none :=
  ⟨download_video_of_all_error outcomes h, rfl⟩

/-- C1 witness: a concrete run in which both completed tasks errored. -/
theorem download_video_all_fail_empty_witness :
    (∀ o ∈ ([Except.error "NetworkTimeout", Except.error "NotFound"] :
        List StrategyOutcome), ∃ e, o = Except.error e)
    ∧ download_video ([Except.error "NetworkTimeout", Except.error "NotFound"] :
        List StrategyOutcome) = none := by
  have h : ∀ o ∈ ([Except.error "NetworkTimeout", Except.error "NotFound"] :
      List StrategyOutcome), ∃ e, o = Except.error e := by
    intro o ho
    simp only [List.mem_cons, List.not_mem_nil, or_false] at ho
    rcases ho with h | h
    · exact ⟨"NetworkTimeout", h⟩
    · exact ⟨"NotFound", h⟩
  exact ⟨h, (download_video_all_fail_empty _ h).1⟩

/-- C3: for every file whose size is at most the size budget, the
ensure-within-budget gate returns the file unchanged — same path, same size —
and performs zero transcoding invocations. -/
theorem ensure_within_budget_noop (budget size : Nat) (path : String)
    (compressed : Option (String × Nat)) (h : size ≤ budget) :
    ensure_within_budget budget path size compressed = (some (path, size), 0) := by
  simp [ensure_within_budget, Nat.not_lt.mpr h]

/-- C3 witness: a 30MB file against the 50MB Telegram budget is passed through
untouched with zero transcoding invocations. -/
theorem ensure_within_budget_noop_witness :
    30 * 1024 * 1024 ≤ MAX_FILE_SIZE
    ∧ ensure_within_budget MAX_FILE_SIZE "video.mp4" (30 * 1024 * 1024) none
        = (some ("video.mp4", 30 * 1024 * 1024), 0) :=
  ⟨by decide, ensure_within_budget_noop MAX_FILE_SIZE (30 * 1024 * 1024) "video.mp4" none
    (by decide)⟩

/-- C8 (counterexample): the unmatched direct-media URL
`https://cdn.foo/clip.mp4` is not classified as the generic-unknown tag. -/
theorem get_platform_cdn_counterexample :
    get_platform "https://cdn.foo/clip.mp4" ≠ "unknown" := by decide

/-- C8 (amended): a URL matching no known platform pattern whose path ends in
a media extension, such as `https://cdn.foo/clip.mp4`, is classified by
`get_platform` as the `direct` tag via the file-extension heuristic. -/
theorem get_platform_cdn_direct :
    get_platform "https://cdn.foo/clip.mp4" = "direct" := by decide

/-- C10: in the minimal bot variant, a text message whose stripped text does
not begin with `http://` or `https://` makes `handle_link` reply with the
invalid-URL message and return; the download machinery is never invoked. -/
theorem handle_link_invalid_scheme (text : String)
    (h : (starts_with "http://" (str_strip text) ||
          starts_with "https://" (str_strip text)) = false) :
    handle_link text = HandleAction.replyInvalid
    ∧ ∀ u : String, handle_link text ≠ HandleAction.download u := by
  constructor
  · simp [handle_link, h]
  · intro u
    simp [handle_link, h]

/-- C10 witness: the message `"hello there"` fails the scheme check and is
rejected. -/
theorem handle_link_invalid_scheme_witness :
    (starts_with "http://" (str_strip "hello there") ||
     starts_with "https://" (str_strip "hello there")) = false
    ∧ handle_link "hello there" = HandleAction.replyInvalid :=
  ⟨by decide, (handle_link_invalid_scheme "hello there" (by decide)).1⟩

/-- The aggressive-compression loop computes exactly the first level whose
transcoded output fits the budget, in ladder order. -/
theorem compress_video_aggressive_eq_first_fit (budget : Nat)
    (attempts : List (String × Option Nat)) (fs : List String) :
    (compress_video_aggressive budget attempts fs).1 = spec_first_fit budget attempts := by
  induction attempts generalizing fs with
  | nil => rfl
  | cons a rest ih =>
    obtain ⟨path, outcome⟩ := a
    cases outcome with
    | none => simpa [compress_video_aggressive, compress_level, spec_first_fit] using ih fs
    | some size =>
      by_cases h : size ≤ budget
      · simp [compress_video_aggressive, compress_level, spec_first_fit, h]
      · simp only [compress_video_aggressive, compress_level, spec_first_fit, h, if_false]
        exact ih _

/-- When no level fits the budget, the loop leaves the file system exactly as
it found it: every over-budget output was deleted and no artifact survives. -/
theorem compress_video_aggressive_fs_of_none (budget : Nat)
    (attempts : List (String × Option Nat)) (fs : List String)
    (h : spec_first_fit budget attempts = none) :
    (compress_video_aggressive budget attempts fs).2 = fs := by
  induction attempts generalizing fs with
  | nil => rfl
  | cons a rest ih =>
    obtain ⟨path, outcome⟩ := a
    cases outcome with
    | none =>
      simp only [spec_first_fit] at h
      simpa [compress_video_aggressive, compress_level] using ih fs h
    | some size =>
      by_cases hs : size ≤ budget
      · simp [spec_first_fit, hs] at h
      · simp only [spec_first_fit, hs, if_false] at h
        simp only [compress_video_aggressive, compress_level, hs, if_false]
        simpa [List.erase_cons_head] using ih fs h

/-- C2: the aggressive ladder is `[720p, 480p, 360p]`, most-preserving first;
levels are attempted in order and the first output within budget is returned;
an over-budget output is deleted before the next level runs; and when even the
most aggressive level exceeds the budget the pipeline returns the terminal
failure `none` with every intermediate artifact deleted (file system
unchanged). -/
theorem compress_video_aggressive_ladder :
    (compression_levels.map (fun l => l.height) = [720, 480, 360])
    ∧ (∀ (budget : Nat) (attempts : List (String × Option Nat)) (fs : List String),
        (compress_video_aggressive budget attempts fs).1 = spec_first_fit budget attempts)
    ∧ (∀ (budget size : Nat) (fs : List String) (path : String), budget < size →
        (compress_level budget fs path (some size)).2 = fs)
    ∧ (∀ (budget : Nat) (attempts : List (String × Option Nat)) (fs : List String),
        spec_first_fit budget attempts = none →
        (compress_video_aggressive budget attempts fs).2 = fs) := by
  refine ⟨rfl, compress_video_aggressive_eq_first_fit, ?_,
    compress_video_aggressive_fs_of_none⟩
  intro budget size fs path h
  simp [compress_level, Nat.not_le.mpr h, List.erase_cons_head]

/-- C2 witness: a 60MB output against a 50MB budget is deleted on the spot,
and a ladder whose outputs are 90MB and 40MB returns the 40MB level. -/
theorem compress_video_aggressive_ladder_witness :
    (50 : Nat) < 60
    ∧ (compress_level 50 [] "aggressive_720p.mp4" (some 60)).2 = []
    ∧ (compress_video_aggressive 50
        [("aggressive_720p.mp4", some 90), ("aggressive_480p.mp4", some 40)] []).1
      = spec_first_fit 50
        [("aggressive_720p.mp4", some 90), ("aggressive_480p.mp4", some 40)] :=
  ⟨by decide, compress_video_aggressive_ladder.2.2.1 50 60 [] "aggressive_720p.mp4" (by decide),
    compress_video_aggressive_ladder.2.1 50
      [("aggressive_720p.mp4", some 90), ("aggressive_480p.mp4", some 40)] []⟩

/-- C4: `__aexit__`'s cleanup removes every path under the request's temp
directory: any path with the `temp_dir/` prefix, any `temp_path`-constructed
artifact, the transient cookie store and every compression intermediate are
gone after cleanup, whatever the file system held. -/
theorem aexit_cleanup_no_orphans :
    (∀ (temp_dir p : String) (fs : List String),
        starts_with (temp_dir ++ "/") p = true → p ∉ aexit_cleanup temp_dir fs)
    ∧ (∀ (temp_dir name : String) (fs : List String),
        temp_path temp_dir name ∉ aexit_cleanup temp_dir fs)
    ∧ (∀ (temp_dir : String) (fs : List String),
        cookie_file temp_dir ∉ aexit_cleanup temp_dir fs)
    ∧ (∀ (temp_dir : String) (h t : Nat) (fs : List String),
        aggressive_output temp_dir h t ∉ aexit_cleanup temp_dir fs)
    ∧ (∀ (temp_dir : String) (t : Nat) (fs : List String),
        ultra_fast_output temp_dir t ∉ aexit_cleanup temp_dir fs) := by
  have main : ∀ (temp_dir p : String) (fs : List String),
      starts_with (temp_dir ++ "/") p = true → p ∉ aexit_cleanup temp_dir fs := by
    intro temp_dir p fs hpre hmem
    have := (List.mem_filter.mp hmem).2
    simp [hpre] at this
  have tp : ∀ (temp_dir name : String) (fs : List String),
      temp_path temp_dir name ∉ aexit_cleanup temp_dir fs := by
    intro temp_dir name fs
    exact main temp_dir _ fs (starts_with_append (temp_dir ++ "/") name)
  exact ⟨main, tp, fun temp_dir fs => tp temp_dir _ fs,
    fun temp_dir h t fs => tp temp_dir _ fs, fun temp_dir t fs => tp temp_dir _ fs⟩

/-- C4 witness: a concrete failed request's cookie store and partial download
are removed by cleanup while an unrelated path may persist. -/
theorem aexit_cleanup_no_orphans_witness :
    starts_with ("/tmp/telegram_bot_x" ++ "/") "/tmp/telegram_bot_x/cookies.txt" = true
    ∧ "/tmp/telegram_bot_x/cookies.txt" ∉
        aexit_cleanup "/tmp/telegram_bot_x"
          ["/tmp/telegram_bot_x/cookies.txt", "/tmp/telegram_bot_x/video.mp4", "/var/log/app.log"] :=
  ⟨by decide, aexit_cleanup_no_orphans.1 "/tmp/telegram_bot_x" "/tmp/telegram_bot_x/cookies.txt"
    ["/tmp/telegram_bot_x/cookies.txt", "/tmp/telegram_bot_x/video.mp4", "/var/log/app.log"]
    (by decide)⟩

/-- C5: `get_platform` is a pure, total, deterministic function of the URL
string: every URL yields one of the fixed platform tags; two URLs equal after
case-folding and stripping yield the same tag; and a URL matching no known
platform, segmented-stream or direct-media pattern yields the generic
`"unknown"` tag rather than failing. -/
theorem get_platform_pure_total :
    (∀ u : String, get_platform u ∈ platform_tags)
    ∧ (∀ u v : String, str_strip (str_lower u) = str_strip (str_lower v) →
        get_platform u = get_platform v)
    ∧ (∀ u : String, any_known_pattern (str_strip (str_lower u)) = false →
        get_platform u = "unknown") := by
  refine ⟨?_, ?_, ?_⟩
  · intro u
    unfold get_platform platform_of platform_tags
    split_ifs <;> simp
  · intro u v h
    unfold get_platform
    rw [h]
  · intro u h
    unfold any_known_pattern at h
    simp only [Bool.or_eq_false_iff] at h
    obtain ⟨⟨⟨⟨⟨⟨h1, h2⟩, h3⟩, h4⟩, h5⟩, h6⟩, h7⟩ := h
    unfold get_platform platform_of
    simp [h1, h2, h3, h4, h5, h6.1, h6.2, h7]

/-- C5 witness: the concrete URL `https://example.org/page` matches no pattern
and is classified as `"unknown"`. -/
theorem get_platform_pure_total_witness :
    any_known_pattern (str_strip (str_lower "https://example.org/page")) = false
    ∧ get_platform "https://example.org/page" = "unknown" :=
  ⟨by decide, get_platform_pure_total.2.2 "https://example.org/page" (by decide)⟩

/-- Invariant behind the throttle: starting from any tracker state, the
`last_update` clock followed by the emitted update times forms a chain whose
consecutive elements are at least `throttle_ms` apart. -/
theorem run_progress_chain (trace : List (Int × Int × Bool)) (st : ProgressTracker) :
    List.Chain' (fun a b => throttle_ms ≤ b - a) (st.last_update :: run_progress st trace) := by
  induction trace generalizing st with
  | nil => simp [run_progress]
  | cons e rest ih =>
    obtain ⟨now, current, ok⟩ := e
    by_cases h1 : now - st.last_update < throttle_ms
    · simpa [run_progress, update_progress, h1] using ih st
    · cases ok with
      | false => simpa [run_progress, update_progress, h1] using ih st
      | true =>
        have h2 : throttle_ms ≤ now - st.last_update := le_of_not_lt h1
        have hch := ih (ProgressTracker.mk now current)
        simp only [run_progress, update_progress, h1, if_neg, if_pos, if_false, if_true]
        exact List.chain'_cons.mpr ⟨h2, by simpa using hch⟩

/-- C6: `ProgressTracker.update_progress` is throttled: a call arriving less
than the 1.2-second interval after the last emitted update emits nothing and
leaves the state unchanged; over any call trace consecutive emitted updates
are at least `throttle_ms` apart; and the interval lies in the specified
1–1.5 second band. -/
theorem update_progress_throttle :
    (∀ (st : ProgressTracker) (now current : Int) (edit_ok : Bool),
        now - st.last_update < throttle_ms →
        update_progress st now current edit_ok = (st, false))
    ∧ (∀ (st : ProgressTracker) (trace : List (Int × Int × Bool)),
        List.Chain' (fun a b => throttle_ms ≤ b - a)
          (st.last_update :: run_progress st trace))
    ∧ ((1000 : Int) ≤ throttle_ms ∧ throttle_ms ≤ 1500) := by
  refine ⟨?_, fun st trace => run_progress_chain trace st, by norm_num [throttle_ms]⟩
  intro st now current ok h
  simp [update_progress, h]

/-- C6 witness: a call 500ms after the last emitted update is dropped. -/
theorem update_progress_throttle_witness :
    ((500 : Int) - (ProgressTracker.mk 0 0).last_update < throttle_ms)
    ∧ update_progress (ProgressTracker.mk 0 0) 500 100 true = (ProgressTracker.mk 0 0, false) :=
  ⟨by decide, update_progress_throttle.1 (ProgressTracker.mk 0 0) 500 100 true (by decide)⟩

/-- C7 (counterexample): the configured wait schedule is
`wait_exponential(multiplier=1, min=4, max=10)`, whose wait after the first
failed attempt is 4 seconds, not the 1 second that a base-1s factor-2 backoff
capped at 10s would give. -/
theorem quality_info_wait_counterexample :
    quality_info_wait 1 = 4 ∧ spec_backoff 1 = 1
    ∧ quality_info_wait 1 ≠ spec_backoff 1 := by decide

/-- C7 (amended): `_get_video_quality_info`'s decorator retries the whole
subprocess invocation up to 3 attempts (a run whose first three attempts fail
returns failure, and a first-attempt success is returned as is), with
exponential backoff of multiplier 1s and factor 2 clamped to the band
[4s, 10s]; the effective waits between the three attempts are 4s and 4s. -/
theorem quality_info_retry_amended :
    (∀ runs : Nat → Option Nat, (∀ k, 1 ≤ k → k ≤ stop_attempts → runs k = none) →
        retry_call stop_attempts runs = none)
    ∧ (∀ (runs : Nat → Option Nat) (a : Nat), runs 1 = some a →
        retry_call stop_attempts runs = some a)
    ∧ quality_info_wait 1 = 4 ∧ quality_info_wait 2 = 4
    ∧ (∀ k : Nat, 4 ≤ quality_info_wait k ∧ quality_info_wait k ≤ 10) := by
  have hr : List.range stop_attempts = [0, 1, 2] := rfl
  refine ⟨?_, ?_, by decide, by decide, ?_⟩
  · intro runs h
    have h1 := h 1 (by decide) (by decide)
    have h2 := h 2 (by decide) (by decide)
    have h3 := h 3 (by decide) (by decide)
    simp [retry_call, hr, List.findSome?_cons, h1, h2, h3]
  · intro runs a ha
    simp [retry_call, hr, List.findSome?_cons, ha]
  · intro k
    refine ⟨Nat.le_max_left _ _, ?_⟩
    exact Nat.max_le.mpr ⟨by norm_num, Nat.min_le_right _ _⟩

/-- C7 witness: a call that fails on every attempt exhausts the 3 attempts and
returns failure. -/
theorem quality_info_retry_amended_witness :
    (∀ k, 1 ≤ k → k ≤ stop_attempts → (fun _ : Nat => (none : Option Nat)) k = none)
    ∧ retry_call stop_attempts (fun _ => none) = none :=
  ⟨fun _ _ _ => rfl, quality_info_retry_amended.1 (fun _ => none) (fun _ _ _ => rfl)⟩

/-- C9 (counterexample): at 29 of 100 bytes done, an accepted call stores 28,
because the binary64 product `(29/100) * 100` is `28.999999999999996` and
`int` truncates it to 28, while the claimed exact formula
`max(20, min(⌊29 * 100 / 100⌋, 100))` gives 29. -/
theorem web_update_progress_float_counterexample :
    (web_update_progress (WebProgressTracker.mk 0) 2000 29 100).2 = some 28
    ∧ max 20 (min (29 * 100 / 100) 100) = 29
    ∧ (web_update_progress (WebProgressTracker.mk 0) 2000 29 100).2
        ≠ some (max 20 (min (29 * 100 / 100) 100)) := by decide

/-- C9 (amended): for every accepted (non-throttled) call with a positive
total, the stored web progress equals
`max(20, min(int((current / total) * 100), 100))` with the inner expression
evaluated in binary64 floating point — which can fall one below the exact
floor — and any stored percentage lies between 20 and 100. -/
theorem web_update_progress_formula (st : WebProgressTracker) (now : Int)
    (current total : Nat) (haccept : ¬ now - st.last_update < web_throttle_ms)
    (htotal : 0 < total) :
    (web_update_progress st now current total).2
      = some (max 20 (min (py_int_div_mul100 current total) 100))
    ∧ ∀ p, (web_update_progress st now current total).2 = some p →
        20 ≤ p ∧ p ≤ 100 := by
  constructor
  · simp [web_update_progress, haccept, htotal]
  · intro p hp
    simp [web_update_progress, haccept, htotal] at hp
    refine ⟨hp ▸ Nat.le_max_left _ _, hp ▸ ?_⟩
    exact Nat.max_le.mpr ⟨by norm_num, Nat.min_le_right _ _⟩

/-- C9 witness: 29 of 100 bytes done, accepted 2 seconds after start, stores
the float-computed percentage (which evaluates to 28). -/
theorem web_update_progress_formula_witness :
    (¬ (2000 : Int) - (WebProgressTracker.mk 0).last_update < web_throttle_ms)
    ∧ (0 < 100)
    ∧ (web_update_progress (WebProgressTracker.mk 0) 2000 29 100).2
        = some (max 20 (min (py_int_div_mul100 29 100) 100)) :=
  ⟨by decide, by decide,
    (web_update_progress_formula (WebProgressTracker.mk 0) 2000 29 100
      (by decide) (by decide)).1⟩
